import Mathlib

/-!
Verification of the access-control and query-scoping logic of the farm
management backend (`farm/views.py`).

The file shallowly embeds the data model (Farm, Motor, Valve, User) and the
view-layer operations: the `IsAdminOrManagerOrOwner` object permission, the
two (conflicting, load-order-shadowed) definitions of the Farm list/detail
querysets, the role-aware `perform_create` of the first `FarmListCreateView`,
and the Motor/Valve list/detail querysets.

Modelling conventions:
- `models.py` and `serializers.py` are not available; per the spec the Farm
  row carries an id and a single owning-user reference (spelled `owner` in
  the first set of views and `user` in the second, shadowing set; the spec
  treats these as two names for Farm's one owning field).  We name it `owner`.
- A Django queryset is embedded as the `List` of matching rows of an explicit
  database snapshot `DB`; `filter` becomes `List.filter`, the `farm__user`
  and `motor__farm__user` relation joins become `List.any` over the parent
  tables, and `get_object` (pk lookup inside `get_queryset`, 404 when absent)
  becomes `List.find?` returning `Option`.
- `request.data.get('owner')` yields `None` when the key is absent (or JSON
  null); a present integer value may still be falsy (`0`).  We model the
  payload field as `Option Nat` and Python truthiness as `truthy`.
-/

/-- User roles; the source compares `request.user.role` against the strings
`'admin'` and `'manager'`, and the spec fixes `role ∈ {admin, manager, user}`. -/
inductive Role where
  | admin
  | manager
  | user
deriving DecidableEq

/-- The authenticated caller: a unique id and a role. -/
structure User where
  id : Nat
  role : Role
deriving DecidableEq

/-- A Farm row: id plus its owning user's id (the field the first view set
calls `owner` and the second calls `user`). -/
structure Farm where
  id : Nat
  owner : Nat
deriving DecidableEq

/-- A Motor row: id plus the id of its parent Farm. -/
structure Motor where
  id : Nat
  farm : Nat
deriving DecidableEq

/-- A Valve row: id plus the id of its parent Motor. -/
structure Valve where
  id : Nat
  motor : Nat
deriving DecidableEq

/-- A snapshot of the relational store's three tables. -/
structure DB where
  farms : List Farm
  motors : List Motor
  valves : List Valve
deriving DecidableEq

/-- `request.user.role in ['admin', 'manager']` — the privileged-role test the
source repeats in the permission class and in the first view set. -/
def isAdminOrManager (u : User) : Bool :=
  decide (u.role = Role.admin ∨ u.role = Role.manager)

/-- `IsAdminOrManagerOrOwner.has_object_permission`: allow admins and managers
unconditionally, otherwise allow iff the object's owner is the requesting
user (`obj.owner == request.user`). -/
def has_object_permission (caller : User) (obj : Farm) : Bool :=
  if isAdminOrManager caller then true
  else obj.owner == caller.id

/-- `get_queryset` of the FIRST `FarmListCreateView` (and, identically, of the
first `FarmDetailView`): all Farms for admins/managers, else
`Farm.objects.filter(owner=user)`. -/
def farmQuerysetV1 (db : DB) (caller : User) : List Farm :=
  if isAdminOrManager caller then db.farms
  else db.farms.filter (fun f => f.owner == caller.id)

/-- `get_queryset` of the SECOND `FarmListCreateView`:
`Farm.objects.filter(user=self.request.user)` — an unconditional ownership
filter with no role bypass.  Because the second class definition shadows the
first at module load, this is the queryset of the effective Farm list
endpoint. -/
def farmListQueryset (db : DB) (caller : User) : List Farm :=
  db.farms.filter (fun f => f.owner == caller.id)

/-- `get_queryset` of the SECOND `FarmDetailView` (the effective Farm detail
endpoint, by the same load-order shadowing): the same unconditional
ownership filter. -/
def farmDetailQueryset (db : DB) (caller : User) : List Farm :=
  db.farms.filter (fun f => f.owner == caller.id)

/-- Module-level rebinding: the two `FarmListCreateView.get_queryset`
definitions in source order; Python keeps only the last binding of the class
name. -/
def farmListQuerysetDefs : List (DB → User → List Farm) :=
  [farmQuerysetV1, farmListQueryset]

/-- The queryset of the class the name `FarmListCreateView` denotes after the
module has loaded: the last definition in source order. -/
def effectiveFarmListQueryset : DB → User → List Farm :=
  farmListQuerysetDefs.getLastD farmQuerysetV1

/-- The Farm-create payload's `owner` key: `none` when the key is absent (or
JSON null), `some n` for an integer value `n`. -/
structure FarmPayload where
  owner : Option Nat
deriving DecidableEq

/-- Python truthiness of `request.data.get('owner')`: `None` and `0` are
falsy. -/
def truthy : Option Nat → Bool
  | none => false
  | some n => decide (n ≠ 0)

/-- Persist one new Farm row (`serializer.save(...)` appending to the table). -/
def saveFarm (db : DB) (f : Farm) : DB :=
  { db with farms := db.farms ++ [f] }

/-- `perform_create` of the FIRST `FarmListCreateView`: admins/managers may
specify the owner via `request.data.get('owner')`, guarded by the truthiness
test `if owner_id:`; otherwise (falsy or absent owner, or a non-privileged
caller) the Farm is saved with `owner=user`, the requesting user.
`newId` is the id the store assigns to the created row. -/
def perform_createV1 (db : DB) (caller : User) (newId : Nat)
    (payload : FarmPayload) : DB :=
  if isAdminOrManager caller then
    if truthy payload.owner then
      saveFarm db { id := newId, owner := payload.owner.getD 0 }
    else
      saveFarm db { id := newId, owner := caller.id }
  else
    saveFarm db { id := newId, owner := caller.id }

/-- Modelled from the spec: `serializers.py` (FarmSerializer) is not under
src/, and the SECOND, shadowing `FarmListCreateView` overrides no
`perform_create`, so the effective create is the framework default
`serializer.save()`.  Per the spec, serialization mirrors the data model 1:1,
so a present `owner` payload value is persisted as the new Farm's owner —
the caller's identity and role play no part — and a request without an
`owner` reference fails (the Farm is owned by exactly one User, so the field
is required) with no row persisted, surfaced as a client error per the
spec's error taxonomy. -/
def performCreateEffective (db : DB) (caller : User) (newId : Nat)
    (payload : FarmPayload) : Option DB :=
  match payload.owner with
  | some oid => some (saveFarm db { id := newId, owner := oid })
  | none => none

/-- `get_queryset` of `MotorListCreateView` (and, identically, of
`MotorDetailView`):
`Motor.objects.filter(farm_id=farm_id, farm__user=self.request.user)` —
motors under the path-parameter farm that is owned by the caller, for every
role. -/
def motorQueryset (db : DB) (farm_id : Nat) (caller : User) : List Motor :=
  db.motors.filter (fun m =>
    m.farm == farm_id &&
    db.farms.any (fun f => f.id == m.farm && f.owner == caller.id))

/-- `get_queryset` of `ValveListCreateView` (and, identically, of
`ValveDetailView`):
`Valve.objects.filter(motor_id=motor_id, motor__farm__user=self.request.user)`
— valves under the path-parameter motor whose farm is owned by the caller,
for every role. -/
def valveQueryset (db : DB) (motor_id : Nat) (caller : User) : List Valve :=
  db.valves.filter (fun v =>
    v.motor == motor_id &&
    db.motors.any (fun m =>
      m.id == v.motor &&
      db.farms.any (fun f => f.id == m.farm && f.owner == caller.id)))

/-- `get_object` of the effective `FarmDetailView`: resolve the pk inside
`get_queryset`; `none` is the not-found (404) outcome. -/
def farmDetail (db : DB) (caller : User) (pk : Nat) : Option Farm :=
  (farmDetailQueryset db caller).find? (fun f => f.id == pk)

/-- `get_object` of `MotorDetailView`: resolve the pk inside the scoped
motor queryset; `none` is the not-found (404) outcome. -/
def motorDetail (db : DB) (caller : User) (farm_id pk : Nat) : Option Motor :=
  (motorQueryset db farm_id caller).find? (fun m => m.id == pk)

/-- `get_object` of `ValveDetailView`: resolve the pk inside the scoped
valve queryset; `none` is the not-found (404) outcome. -/
def valveDetail (db : DB) (caller : User) (motor_id pk : Nat) : Option Valve :=
  (valveQueryset db motor_id caller).find? (fun v => v.id == pk)

/-- Modelled from the spec: `serializers.py` is not under src/ and
`MotorListCreateView` overrides no `perform_create`, so the effective Motor
create is the framework default `serializer.save()`: it persists a new Motor
row with the parent reference from the payload, without any check that the
referenced farm is owned by the caller (the view applies no such check —
the gap the spec flags in §4.5/§9). -/
def motorCreateEffective (db : DB) (caller : User) (newId farmRef : Nat) : DB :=
  { db with motors := db.motors ++ [{ id := newId, farm := farmRef }] }

/-- Modelled from the spec: as for `motorCreateEffective`, the effective Valve
create persists a new Valve row with the parent reference from the payload,
with no ownership check on the referenced motor's farm. -/
def valveCreateEffective (db : DB) (caller : User) (newId motorRef : Nat) : DB :=
  { db with valves := db.valves ++ [{ id := newId, motor := motorRef }] }

/-- Sample regular user (id 1). -/
def uReg : User := { id := 1, role := Role.user }

/-- Sample admin user (id 1). -/
def uAdmin : User := { id := 1, role := Role.admin }

/-- Sample farm with id 100 owned by user 2 (not by `uReg`/`uAdmin`). -/
def fOther : Farm := { id := 100, owner := 2 }

/-- Sample database holding only `fOther`. -/
def dbOther : DB := { farms := [fOther], motors := [], valves := [] }

/-- Sample database holding a farm owned by user 2, with a motor under it. -/
def dbParent : DB :=
  { farms := [{ id := 100, owner := 2 }]
    motors := [{ id := 5, farm := 100 }]
    valves := [] }

/-- C6: `IsAdminOrManagerOrOwner.has_object_permission` allows every caller
whose role is admin or manager, regardless of the object, and every other
caller exactly when the object's owner is the caller. -/
theorem c6_object_permission (caller : User) (obj : Farm) :
    has_object_permission caller obj = true ↔
      ((caller.role = Role.admin ∨ caller.role = Role.manager) ∨
        obj.owner = caller.id) := by
  unfold has_object_permission isAdminOrManager
  split
  · simp_all
  · simp_all

/-- C1 (counterexample): the claim predicts that an admin's Farm list
contains every Farm, but the effective (second, shadowing)
`FarmListCreateView.get_queryset` filters on ownership with no role bypass:
the admin `uAdmin` does not see `fOther`, a farm owned by user 2. -/
theorem c1_counterexample :
    isAdminOrManager uAdmin = true ∧ fOther ∈ dbOther.farms ∧
      fOther ∉ farmListQueryset dbOther uAdmin := by
  decide

/-- C1 (amended): for every caller — of any role — the effective Farm list
endpoint's scoped collection contains a Farm iff the Farm is in the store and
its owning-user field equals the caller; the role-based all-Farms bypass
exists only in the first, shadowed `get_queryset`. -/
theorem c1_effective_farm_list_scope (db : DB) (U : User) (F : Farm) :
    F ∈ farmListQueryset db U ↔ F ∈ db.farms ∧ F.owner = U.id := by
  simp [farmListQueryset, List.mem_filter]

/-- C8: by load order the second class definitions are the effective ones, so
for every caller — admins and managers included — the effective Farm
list/detail queryset is exactly the Farms whose owning-user field equals the
caller, and the effective create applies no role- or caller-dependent owner
assignment. -/
theorem c8_shadowed_farm_endpoints (db : DB) (U : User) (F : Farm) :
    effectiveFarmListQueryset = farmListQueryset ∧
    (F ∈ effectiveFarmListQueryset db U ↔ F ∈ db.farms ∧ F.owner = U.id) ∧
    (F ∈ farmDetailQueryset db U ↔ F ∈ db.farms ∧ F.owner = U.id) ∧
    (∀ (U' : User) (n : Nat) (p : FarmPayload),
      performCreateEffective db U n p = performCreateEffective db U' n p) := by
  refine ⟨rfl, ?_, ?_, fun U' n p => rfl⟩
  · simp [effectiveFarmListQueryset, farmListQuerysetDefs, List.getLastD,
      farmListQueryset, List.mem_filter]
  · simp [farmDetailQueryset, List.mem_filter]

/-- C2 (counterexample): under the effective (shadowing) `FarmListCreateView`
no owner-forcing `perform_create` runs, so a non-privileged caller's payload
`owner` value is persisted as given: regular user 1 creating with `owner=5`
yields a Farm owned by user 5, not by the caller. -/
theorem c2_counterexample :
    isAdminOrManager uReg = false ∧ uReg.id ≠ 5 ∧
      performCreateEffective dbOther uReg 7 { owner := some 5 } =
        some { farms := [fOther, { id := 7, owner := 5 }],
               motors := [], valves := [] } := by
  decide

/-- C2 (amended): in the first (shadowed) role-aware `perform_create`, for
every non-privileged caller and every payload, the persisted Farm's owner is
the caller and the payload's `owner` value is never used; the effective
endpoint instead persists the payload's `owner` value directly. -/
theorem c2_nonprivileged_create (db : DB) (u : User) (n : Nat)
    (p : FarmPayload) (h : isAdminOrManager u = false) :
    perform_createV1 db u n p = saveFarm db { id := n, owner := u.id } ∧
    (∀ (x : Nat), performCreateEffective db u n { owner := some x } =
      some (saveFarm db { id := n, owner := x })) := by
  exact ⟨by simp [perform_createV1, h], fun x => rfl⟩

/-- C2 (witness): regular user 1 with payload `owner=5` under the shadowed
`perform_create` gets a Farm owned by user 1. -/
theorem c2_witness :
    isAdminOrManager uReg = false ∧
      perform_createV1 dbOther uReg 7 { owner := some 5 } =
        saveFarm dbOther { id := 7, owner := uReg.id } :=
  ⟨by decide,
    (c2_nonprivileged_create dbOther uReg 7 { owner := some 5 } (by decide)).1⟩

/-- C3 (counterexample): the claim predicts that a privileged create with no
`owner` in the payload persists a Farm owned by the caller, but the effective
(shadowing) `FarmListCreateView` has no such defaulting logic: the request
fails with no row persisted. -/
theorem c3_counterexample :
    isAdminOrManager uAdmin = true ∧
      performCreateEffective dbOther uAdmin 7 { owner := none } = none := by
  decide

/-- C3 (amended): for a privileged caller, a truthy payload `owner=x` is
persisted as the Farm's owner both by the first (shadowed) `perform_create`
and by the effective endpoint; with no `owner` in the payload, the first
(shadowed) `perform_create` defaults the owner to the caller, while the
effective endpoint rejects the request with no row persisted. -/
theorem c3_privileged_create (db : DB) (u : User) (n x : Nat)
    (h : isAdminOrManager u = true) (hx : x ≠ 0) :
    perform_createV1 db u n { owner := some x } =
      saveFarm db { id := n, owner := x } ∧
    perform_createV1 db u n { owner := none } =
      saveFarm db { id := n, owner := u.id } ∧
    performCreateEffective db u n { owner := some x } =
      some (saveFarm db { id := n, owner := x }) ∧
    performCreateEffective db u n { owner := none } = none := by
  refine ⟨?_, ?_, rfl, rfl⟩
  · simp [perform_createV1, h, truthy, hx]
  · simp [perform_createV1, h, truthy]

/-- C3 (witness): admin user 1 with payload `owner=5` gets a Farm owned by
user 5 under the shadowed `perform_create`. -/
theorem c3_witness :
    isAdminOrManager uAdmin = true ∧ (5 : Nat) ≠ 0 ∧
      perform_createV1 dbOther uAdmin 7 { owner := some 5 } =
        saveFarm dbOther { id := 7, owner := 5 } :=
  ⟨by decide, by decide,
    (c3_privileged_create dbOther uAdmin 7 5 (by decide) (by decide)).1⟩

/-- C9: in the first (role-aware) `perform_create`, a privileged caller whose
payload `owner` is falsy (absent, null, or 0) gets a Farm owned by the
caller — the truthiness guard `if owner_id:` sends falsy values to the
default branch, exactly as if the field were absent. -/
theorem c9_falsy_owner (db : DB) (u : User) (n : Nat) (p : FarmPayload)
    (h : isAdminOrManager u = true) (hf : truthy p.owner = false) :
    perform_createV1 db u n p = saveFarm db { id := n, owner := u.id } := by
  simp [perform_createV1, h, hf]

/-- C9 (witness): admin user 1 with the falsy payload `owner=0` gets a Farm
owned by user 1. -/
theorem c9_witness :
    isAdminOrManager uAdmin = true ∧ truthy (some 0) = false ∧
      perform_createV1 dbOther uAdmin 7 { owner := some 0 } =
        saveFarm dbOther { id := 7, owner := uAdmin.id } :=
  ⟨by decide, by decide,
    c9_falsy_owner dbOther uAdmin 7 { owner := some 0 } (by decide) (by decide)⟩

/-- Membership characterization of the Motor queryset: the `farm_id` column
match plus the `farm__user` relation join. -/
theorem mem_motorQueryset (db : DB) (farm_id : Nat) (U : User) (M : Motor) :
    M ∈ motorQueryset db farm_id U ↔
      M ∈ db.motors ∧ M.farm = farm_id ∧
        ∃ F ∈ db.farms, F.id = M.farm ∧ F.owner = U.id := by
  simp [motorQueryset, List.mem_filter, List.any_eq_true]

/-- Membership characterization of the Valve queryset: the `motor_id` column
match plus the `motor__farm__user` relation join. -/
theorem mem_valveQueryset (db : DB) (motor_id : Nat) (U : User) (V : Valve) :
    V ∈ valveQueryset db motor_id U ↔
      V ∈ db.valves ∧ V.motor = motor_id ∧
        ∃ m ∈ db.motors, m.id = V.motor ∧
          ∃ F ∈ db.farms, F.id = m.farm ∧ F.owner = U.id := by
  simp [valveQueryset, List.mem_filter, List.any_eq_true]

/-- Specification of pk resolution by `List.find?` over a scoped queryset:
a hit is a member of the queryset bearing the pk, and a miss (404) happens
exactly when no member bears the pk. -/
theorem detail_find_spec {α : Type} (getId : α → Nat) (l : List α) (pk : Nat) :
    (∀ a, l.find? (fun a => getId a == pk) = some a → a ∈ l ∧ getId a = pk) ∧
    (l.find? (fun a => getId a == pk) = none ↔ ∀ a ∈ l, getId a ≠ pk) := by
  constructor
  · intro a h
    exact ⟨List.mem_of_find?_eq_some h, by simpa using List.find?_some h⟩
  · rw [List.find?_eq_none]
    simp

/-- C5: for every caller of any role, a Motor is in the scoped Motor
collection iff it lies under the path-parameter farm and that farm's owner is
the caller; likewise a Valve iff it lies under the path-parameter motor and
that motor's farm's owner is the caller; and the scoping is independent of
the caller's role — privileged roles get no bypass. -/
theorem c5_motor_valve_scope (db : DB) (farm_id motor_id : Nat) (U : User)
    (M : Motor) (V : Valve) :
    (M ∈ motorQueryset db farm_id U ↔
      M ∈ db.motors ∧ M.farm = farm_id ∧
        ∃ F ∈ db.farms, F.id = M.farm ∧ F.owner = U.id) ∧
    (V ∈ valveQueryset db motor_id U ↔
      V ∈ db.valves ∧ V.motor = motor_id ∧
        ∃ m ∈ db.motors, m.id = V.motor ∧
          ∃ F ∈ db.farms, F.id = m.farm ∧ F.owner = U.id) ∧
    (∀ (i : Nat) (r r' : Role),
      motorQueryset db farm_id { id := i, role := r } =
        motorQueryset db farm_id { id := i, role := r' } ∧
      valveQueryset db motor_id { id := i, role := r } =
        valveQueryset db motor_id { id := i, role := r' }) :=
  ⟨mem_motorQueryset db farm_id U M, mem_valveQueryset db motor_id U V,
    fun _ _ _ => ⟨rfl, rfl⟩⟩

/-- C7: on all three resource types the detail endpoints resolve the pk
inside the caller's scoped collection: a resolved object is a member of the
scoped collection bearing the pk, and the request fails with not-found
exactly when no member of the scoped collection bears the pk — an object
that exists outside the scope yields the same not-found outcome. -/
theorem c7_detail_resolution (db : DB) (U : User) (pk farm_id motor_id : Nat) :
    ((∀ F, farmDetail db U pk = some F →
        F ∈ farmDetailQueryset db U ∧ F.id = pk) ∧
      (farmDetail db U pk = none ↔
        ∀ F ∈ farmDetailQueryset db U, F.id ≠ pk)) ∧
    ((∀ M, motorDetail db U farm_id pk = some M →
        M ∈ motorQueryset db farm_id U ∧ M.id = pk) ∧
      (motorDetail db U farm_id pk = none ↔
        ∀ M ∈ motorQueryset db farm_id U, M.id ≠ pk)) ∧
    ((∀ V, valveDetail db U motor_id pk = some V →
        V ∈ valveQueryset db motor_id U ∧ V.id = pk) ∧
      (valveDetail db U motor_id pk = none ↔
        ∀ V ∈ valveQueryset db motor_id U, V.id ≠ pk)) :=
  ⟨detail_find_spec Farm.id _ pk, detail_find_spec Motor.id _ pk,
    detail_find_spec Valve.id _ pk⟩

/-- C7 (witness): farm 100 exists but is owned by user 2, so it is outside
admin user 1's (effective, ownership-only) scoped collection and the detail
request resolves to not-found. -/
theorem c7_witness :
    fOther ∈ dbOther.farms ∧ farmDetail dbOther uAdmin 100 = none :=
  ⟨by decide,
    (c7_detail_resolution dbOther uAdmin 100 0 0).1.2.mpr (by decide)⟩

/-- C10: for every caller, privileged roles included, Motor/Valve detail
requests enforce ownership: any object the detail endpoint resolves has its
transitively resolved farm owned by the caller; when no Motor's farm is
owned by the caller, Motor and Valve detail requests resolve to not-found;
and the outcome is independent of the caller's role. -/
theorem c10_no_privileged_detail_bypass (db : DB) (U : User)
    (farm_id motor_id pk : Nat) :
    (∀ M, motorDetail db U farm_id pk = some M →
      ∃ F ∈ db.farms, F.id = M.farm ∧ F.owner = U.id) ∧
    (∀ V, valveDetail db U motor_id pk = some V →
      ∃ m ∈ db.motors, m.id = V.motor ∧
        ∃ F ∈ db.farms, F.id = m.farm ∧ F.owner = U.id) ∧
    ((∀ M ∈ db.motors, ∀ F ∈ db.farms, F.id = M.farm → F.owner ≠ U.id) →
      motorDetail db U farm_id pk = none ∧
      valveDetail db U motor_id pk = none) ∧
    (∀ (i : Nat) (r r' : Role),
      motorDetail db { id := i, role := r } farm_id pk =
        motorDetail db { id := i, role := r' } farm_id pk ∧
      valveDetail db { id := i, role := r } motor_id pk =
        valveDetail db { id := i, role := r' } motor_id pk) := by
  refine ⟨?_, ?_, ?_, fun i r r' => ⟨rfl, rfl⟩⟩
  · intro M h
    have hm := (detail_find_spec Motor.id (motorQueryset db farm_id U) pk).1 M h
    exact ((mem_motorQueryset db farm_id U M).1 hm.1).2.2
  · intro V h
    have hv := (detail_find_spec Valve.id (valveQueryset db motor_id U) pk).1 V h
    exact ((mem_valveQueryset db motor_id U V).1 hv.1).2.2
  · intro hno
    constructor
    · refine (detail_find_spec Motor.id (motorQueryset db farm_id U) pk).2.mpr ?_
      intro M hM
      obtain ⟨hMdb, -, F, hF, hFid, hFown⟩ := (mem_motorQueryset db farm_id U M).1 hM
      exact absurd hFown (hno M hMdb F hF hFid)
    · refine (detail_find_spec Valve.id (valveQueryset db motor_id U) pk).2.mpr ?_
      intro V hV
      obtain ⟨hVdb, -, m, hm, hmid, F, hF, hFid, hFown⟩ :=
        (mem_valveQueryset db motor_id U V).1 hV
      exact absurd hFown (hno m hm F hF hFid)

/-- C10 (witness): admin user 1 requesting motor 5 (under farm 100, owned by
user 2) or any valve under motor 5 gets not-found. -/
theorem c10_witness :
    motorDetail dbParent uAdmin 100 5 = none ∧
      valveDetail dbParent uAdmin 5 5 = none :=
  (c10_no_privileged_detail_bypass dbParent uAdmin 100 5 5).2.2.1 (by decide)

/-- C4: the claim says a Motor/Valve create against a parent the caller does
not own is rejected with no row persisted, but the effective create views
apply no such check: regular user 1, who owns no farm in the store, creates a
Motor under farm 100 (owned by user 2) and a Valve under motor 5, and both
rows are persisted. -/
theorem c4_create_persists_without_check :
    (∀ F ∈ dbParent.farms, F.owner ≠ uReg.id) ∧
    (motorCreateEffective dbParent uReg 7 100).motors =
      [{ id := 5, farm := 100 }, { id := 7, farm := 100 }] ∧
    (valveCreateEffective dbParent uReg 8 5).valves =
      [{ id := 8, motor := 5 }] := by
  decide
